import Mathlib

/-!
Shallow embedding of the Flappy Bird simulation core from `src/src/app/game.tsx`.

Modelling conventions:
* JavaScript numbers are modelled as rationals (`ℚ`).
* React state plus the reanimated shared values form one record, `GameState`.
* The two `setInterval` schedulers (the ~16 ms game loop and the 2000 ms pipe
  generator) are modelled by Boolean activity flags: `setInterval` sets the
  flag, `clearInterval` clears it, and a signal fires only while its flag is
  set (`fireTick`, `fireSpawn`).
* Animated values (`withTiming`, `withSequence`) are modelled by the final
  target value of the animation; they are display-only and never read back by
  the game logic.
* `Math.random()` is modelled by a parameter `r` with `0 ≤ r < 1`.
* `useWindowDimensions` is modelled by the parameters `width` and `height`.
-/

namespace Flappy

/-- Constant `GRAVITY = 0.6` from the source. -/
def GRAVITY : ℚ := 3 / 5

/-- Constant `JUMP_HEIGHT = -12` from the source. -/
def JUMP_HEIGHT : ℚ := -12

/-- Constant `PIPE_WIDTH = 80` from the source. -/
def PIPE_WIDTH : ℚ := 80

/-- Constant `PIPE_GAP = 200` from the source. -/
def PIPE_GAP : ℚ := 200

/-- Constant `PIPE_SPEED = 2` from the source. -/
def PIPE_SPEED : ℚ := 2

/-- Fixed avatar horizontal position, `const birdX = 100` in the game loop. -/
def birdX : ℚ := 100

/-- Fixed avatar collision radius, `const birdRadius = 20` in the game loop. -/
def birdRadius : ℚ := 20

/-- Record `interface Pipe` from the source: one obstacle. -/
structure Pipe where
  x : ℚ
  topHeight : ℚ
  bottomHeight : ℚ
  passed : Bool
deriving DecidableEq

/-- The whole component state: the React state hooks `isGameStarted`,
`isGameOver`, `score`, `pipes`, the shared values `birdY`, `birdVelocity`,
`birdRotation`, and the two scheduler activity flags standing for
`gameLoopRef` and `pipeGenerationRef` holding a live interval. -/
structure GameState where
  isGameStarted : Bool
  isGameOver : Bool
  score : Nat
  pipes : List Pipe
  birdY : ℚ
  birdVelocity : ℚ
  birdRotation : ℚ
  tickActive : Bool
  spawnActive : Bool
deriving DecidableEq

/-- State of the component as freshly mounted: flags false, score 0, no
pipes, bird centered (`useSharedValue(height / 2)`), zero velocity and
rotation, no scheduler running. -/
def initialState (height : ℚ) : GameState where
  isGameStarted := false
  isGameOver := false
  score := 0
  pipes := []
  birdY := height / 2
  birdVelocity := 0
  birdRotation := 0
  tickActive := false
  spawnActive := false

/-- Function `resetGame` from the source.  Note that it does not touch the
scheduler flags: the source's `resetGame` never calls `clearInterval`. -/
def resetGame (height : ℚ) (s : GameState) : GameState :=
  { s with birdY := height / 2, birdVelocity := 0, birdRotation := 0,
           score := 0, pipes := [], isGameOver := false, isGameStarted := false }

/-- Function `endGame` from the source: set `isGameOver` and clear both
intervals. -/
def endGame (s : GameState) : GameState :=
  { s with isGameOver := true, tickActive := false, spawnActive := false }

/-- Target value of `interpolate(v, [-10, 10], [-20, 90], 'clamp')`. -/
def rotationTarget (v : ℚ) : ℚ :=
  if v ≤ -10 then -20
  else if 10 ≤ v then 90
  else -20 + (v + 10) * (110 / 20)

/-- Collision test from the game loop, for one pipe against the bird at
height `y` (the value of `currentBirdY`). -/
def collidesPipe (height y : ℚ) (p : Pipe) : Bool :=
  decide (birdX + birdRadius > p.x) &&
  decide (birdX - birdRadius < p.x + PIPE_WIDTH) &&
  (decide (y - birdRadius < p.topHeight) ||
   decide (y + birdRadius > height - p.bottomHeight))

/-- The `for (const pipe of newPipes)` loop of the game loop: scan the
advanced pipes in order; on the first collision call `endGame` and `break`
(remaining pipes untouched, recorded by the Boolean); otherwise mark a newly
passed pipe and count one `incrementScore` call.  Returns the pipe list after
the loop's mutations, the number of score increments, and whether a collision
fired. -/
def scanPipes (height y : ℚ) : List Pipe → List Pipe × Nat × Bool
  | [] => ([], 0, false)
  | p :: rest =>
    if collidesPipe height y p then (p :: rest, 0, true)
    else if !p.passed && decide (p.x + PIPE_WIDTH < birdX) then
      ({ p with passed := true } :: (scanPipes height y rest).1,
        (scanPipes height y rest).2.1 + 1, (scanPipes height y rest).2.2)
    else
      (p :: (scanPipes height y rest).1, (scanPipes height y rest).2.1,
        (scanPipes height y rest).2.2)

/-- Ground/ceiling test from the game loop:
`birdY.value > height - 100 || birdY.value < 50`. -/
def boundaryHit (height y : ℚ) : Bool :=
  decide (y > height - 100) || decide (y < 50)

/-- Body of the ~16 ms `setInterval` callback installed by `startGame`, in
source order: physics integration, rotation update, ground/ceiling check
(calling `endGame`), then the `setPipes` updater — advance pipes by
`PIPE_SPEED`, run the collision/passage loop, and filter out pipes with
`pipe.x <= -PIPE_WIDTH`.  `endGame` for a collision is merged after the loop:
it only sets flags the rest of the callback never reads. -/
def tickBody (height : ℚ) (s : GameState) : GameState :=
  let v := s.birdVelocity + GRAVITY
  let sPhys : GameState :=
    { s with birdVelocity := v, birdY := s.birdY + v,
             birdRotation := rotationTarget v }
  let sBound := if boundaryHit height sPhys.birdY then endGame sPhys else sPhys
  let advanced := sBound.pipes.map (fun p => { p with x := p.x - PIPE_SPEED })
  let r := scanPipes height sBound.birdY advanced
  let sPipes :=
    { sBound with score := sBound.score + r.2.1,
                  pipes := r.1.filter (fun p => decide (p.x > -PIPE_WIDTH)) }
  if r.2.2 then endGame sPipes else sPipes

/-- Function `startGame` from the source: bail into `resetGame` when the game
is over, otherwise mark the game started and install both intervals. -/
def startGame (height : ℚ) (s : GameState) : GameState :=
  if s.isGameOver then resetGame height s
  else { s with isGameStarted := true, tickActive := true, spawnActive := true }

/-- The pipe generated by the 2000 ms interval callback, with `r` standing
for the sampled `Math.random()`. -/
def spawnPipe (width height r : ℚ) : Pipe :=
  { x := width,
    topHeight := r * (height - PIPE_GAP - 200) + 100,
    bottomHeight := height - (r * (height - PIPE_GAP - 200) + 100) - PIPE_GAP,
    passed := false }

/-- Body of the 2000 ms `setInterval` callback installed by `startGame`:
append one freshly generated pipe. -/
def spawnBody (width height r : ℚ) (s : GameState) : GameState :=
  { s with pipes := s.pipes ++ [spawnPipe width height r] }

/-- Function `handleTap` from the source.  The jump branch sets the velocity
to `JUMP_HEIGHT` and starts the rotation sequence whose final target is 0. -/
def handleTap (height : ℚ) (s : GameState) : GameState :=
  if !s.isGameStarted && !s.isGameOver then startGame height s
  else if s.isGameOver then resetGame height s
  else { s with birdVelocity := JUMP_HEIGHT, birdRotation := 0 }

/-- A tick signal fires only while the game-loop interval is installed. -/
def fireTick (height : ℚ) (s : GameState) : GameState :=
  if s.tickActive then tickBody height s else s

/-- A spawn signal fires only while the pipe-generation interval is
installed. -/
def fireSpawn (width height r : ℚ) (s : GameState) : GameState :=
  if s.spawnActive then spawnBody width height r s else s

/-- Phase Playing of the spec's state machine: game started, not over. -/
def playing (s : GameState) : Prop :=
  s.isGameStarted = true ∧ s.isGameOver = false

/-- Phase Ended of the spec's state machine. -/
def ended (s : GameState) : Prop := s.isGameOver = true

/-- Phase Idle of the spec's state machine. -/
def idle (s : GameState) : Prop :=
  s.isGameStarted = false ∧ s.isGameOver = false

/-- Physics integration alone (spec operation `integrate()`). -/
def physicsStep (s : GameState) : GameState :=
  { s with birdVelocity := s.birdVelocity + GRAVITY,
           birdY := s.birdY + (s.birdVelocity + GRAVITY),
           birdRotation := rotationTarget (s.birdVelocity + GRAVITY) }

/-- Ground/ceiling termination alone. -/
def boundaryStep (height : ℚ) (s : GameState) : GameState :=
  if boundaryHit height s.birdY then endGame s else s

/-- The pipe half of the tick alone: advance, collision/passage scan,
pruning, and the collision `endGame`. -/
def pipesStep (height : ℚ) (s : GameState) : GameState :=
  let advanced := s.pipes.map (fun p => { p with x := p.x - PIPE_SPEED })
  let r := scanPipes height s.birdY advanced
  let sPipes :=
    { s with score := s.score + r.2.1,
             pipes := r.1.filter (fun p => decide (p.x > -PIPE_WIDTH)) }
  if r.2.2 then endGame sPipes else sPipes

/-!  Basic projection lemmas. -/

@[simp] theorem endGame_birdY (s : GameState) : (endGame s).birdY = s.birdY := rfl

@[simp] theorem endGame_birdVelocity (s : GameState) :
    (endGame s).birdVelocity = s.birdVelocity := rfl

@[simp] theorem endGame_score (s : GameState) : (endGame s).score = s.score := rfl

@[simp] theorem endGame_pipes (s : GameState) : (endGame s).pipes = s.pipes := rfl

@[simp] theorem endGame_isGameOver (s : GameState) :
    (endGame s).isGameOver = true := rfl

@[simp] theorem endGame_tickActive (s : GameState) :
    (endGame s).tickActive = false := rfl

@[simp] theorem endGame_spawnActive (s : GameState) :
    (endGame s).spawnActive = false := rfl

/-- The tick callback is exactly physics integration, then the boundary
check, then the pipe phase. -/
theorem tickBody_eq_steps (height : ℚ) (s : GameState) :
    tickBody height s = pipesStep height (boundaryStep height (physicsStep s)) := by
  simp only [tickBody, pipesStep, boundaryStep, physicsStep]

/-!  Lemmas about the collision/passage loop. -/

/-- On a collision with the head pipe the loop stops at once: the whole list
is returned untouched and no score increment is recorded. -/
theorem scanPipes_cons_collide (height y : ℚ) (p : Pipe) (rest : List Pipe)
    (hc : collidesPipe height y p = true) :
    scanPipes height y (p :: rest) = (p :: rest, 0, true) := by
  simp [scanPipes, hc]

/-- A non-colliding, unpassed head pipe whose trailing edge is left of the
bird is marked passed and scores one point. -/
theorem scanPipes_cons_pass (height y : ℚ) (p : Pipe) (rest : List Pipe)
    (hc : ¬ collidesPipe height y p = true) (hq : p.passed = false)
    (hx : p.x + PIPE_WIDTH < birdX) :
    scanPipes height y (p :: rest) =
      ({ p with passed := true } :: (scanPipes height y rest).1,
        (scanPipes height y rest).2.1 + 1, (scanPipes height y rest).2.2) := by
  simp [scanPipes, hc, hq, hx]

/-- A head pipe that neither collides nor newly passes is carried through
unchanged. -/
theorem scanPipes_cons_skip (height y : ℚ) (p : Pipe) (rest : List Pipe)
    (hc : ¬ collidesPipe height y p = true)
    (hs : ¬ (!p.passed && decide (p.x + PIPE_WIDTH < birdX)) = true) :
    scanPipes height y (p :: rest) =
      (p :: (scanPipes height y rest).1, (scanPipes height y rest).2.1,
        (scanPipes height y rest).2.2) := by
  simp only [scanPipes]
  rw [if_neg hc, if_neg hs]

/-- The loop never changes a pipe's horizontal position. -/
theorem scanPipes_map_x (height y : ℚ) (l : List Pipe) :
    ((scanPipes height y l).1.map Pipe.x) = l.map Pipe.x := by
  induction l with
  | nil => rfl
  | cons p rest ih =>
    by_cases hc : collidesPipe height y p = true
    · rw [scanPipes_cons_collide height y p rest hc]
    · by_cases hs : (!p.passed && decide (p.x + PIPE_WIDTH < birdX)) = true
      · have hqx : p.passed = false ∧ p.x + PIPE_WIDTH < birdX := by simpa using hs
        rw [scanPipes_cons_pass height y p rest hc hqx.1 hqx.2]
        simp [ih]
      · rw [scanPipes_cons_skip height y p rest hc hs]
        simp [ih]

/-- The loop reports a collision exactly when some pipe of its input
collides. -/
theorem scanPipes_collided (height y : ℚ) (l : List Pipe) :
    (scanPipes height y l).2.2 = l.any (collidesPipe height y) := by
  induction l with
  | nil => rfl
  | cons p rest ih =>
    by_cases hc : collidesPipe height y p = true
    · rw [scanPipes_cons_collide height y p rest hc]
      simp [hc]
    · by_cases hs : (!p.passed && decide (p.x + PIPE_WIDTH < birdX)) = true
      · have hqx : p.passed = false ∧ p.x + PIPE_WIDTH < birdX := by simpa using hs
        rw [scanPipes_cons_pass height y p rest hc hqx.1 hqx.2]
        simp [hc, ih]
      · rw [scanPipes_cons_skip height y p rest hc hs]
        simp [hc, ih]

/-- Element-wise account of the loop: each output pipe equals its input pipe
except possibly for `passed` turning from `false` to `true`, and a pipe is so
marked only if its trailing edge is left of the bird. -/
theorem scanPipes_marks (height y : ℚ) (l : List Pipe) :
    List.Forall₂ (fun p q =>
        q.x = p.x ∧ q.topHeight = p.topHeight ∧ q.bottomHeight = p.bottomHeight ∧
          (q.passed = p.passed ∨
            (p.passed = false ∧ q.passed = true ∧ p.x + PIPE_WIDTH < birdX)))
      l (scanPipes height y l).1 := by
  induction l with
  | nil => exact List.Forall₂.nil
  | cons p rest ih =>
    by_cases hc : collidesPipe height y p = true
    · rw [scanPipes_cons_collide height y p rest hc]
      refine List.Forall₂.cons ⟨rfl, rfl, rfl, Or.inl rfl⟩ ?_
      exact List.forall₂_same.2 (fun q _ => ⟨rfl, rfl, rfl, Or.inl rfl⟩)
    · by_cases hs : (!p.passed && decide (p.x + PIPE_WIDTH < birdX)) = true
      · have hqx : p.passed = false ∧ p.x + PIPE_WIDTH < birdX := by simpa using hs
        rw [scanPipes_cons_pass height y p rest hc hqx.1 hqx.2]
        exact List.Forall₂.cons ⟨rfl, rfl, rfl, Or.inr ⟨hqx.1, rfl, hqx.2⟩⟩ ih
      · rw [scanPipes_cons_skip height y p rest hc hs]
        exact List.Forall₂.cons ⟨rfl, rfl, rfl, Or.inl rfl⟩ ih

/-- The number of `incrementScore` calls made by the loop equals the number
of pipes whose `passed` flag it turned on. -/
theorem scanPipes_countP (height y : ℚ) (l : List Pipe) :
    ((scanPipes height y l).1.countP (fun p => p.passed)) =
      l.countP (fun p => p.passed) + (scanPipes height y l).2.1 := by
  induction l with
  | nil => rfl
  | cons p rest ih =>
    by_cases hc : collidesPipe height y p = true
    · rw [scanPipes_cons_collide height y p rest hc]
      simp
    · by_cases hs : (!p.passed && decide (p.x + PIPE_WIDTH < birdX)) = true
      · have hqx : p.passed = false ∧ p.x + PIPE_WIDTH < birdX := by simpa using hs
        rw [scanPipes_cons_pass height y p rest hc hqx.1 hqx.2]
        simp [List.countP_cons, ih, hqx.1]
        omega
      · rw [scanPipes_cons_skip height y p rest hc hs]
        simp only [List.countP_cons, ih]
        cases hq : p.passed
        · simp
        · simp only [if_pos rfl, ih]
          omega

/-!  Projection lemmas for the three phases of a tick. -/

@[simp] theorem physicsStep_birdVelocity (s : GameState) :
    (physicsStep s).birdVelocity = s.birdVelocity + GRAVITY := rfl

@[simp] theorem physicsStep_birdY (s : GameState) :
    (physicsStep s).birdY = s.birdY + (s.birdVelocity + GRAVITY) := rfl

@[simp] theorem physicsStep_pipes (s : GameState) :
    (physicsStep s).pipes = s.pipes := rfl

@[simp] theorem physicsStep_score (s : GameState) :
    (physicsStep s).score = s.score := rfl

@[simp] theorem physicsStep_isGameOver (s : GameState) :
    (physicsStep s).isGameOver = s.isGameOver := rfl

@[simp] theorem physicsStep_isGameStarted (s : GameState) :
    (physicsStep s).isGameStarted = s.isGameStarted := rfl

@[simp] theorem physicsStep_tickActive (s : GameState) :
    (physicsStep s).tickActive = s.tickActive := rfl

@[simp] theorem physicsStep_spawnActive (s : GameState) :
    (physicsStep s).spawnActive = s.spawnActive := rfl

@[simp] theorem boundaryStep_birdY (height : ℚ) (s : GameState) :
    (boundaryStep height s).birdY = s.birdY := by
  unfold boundaryStep; split <;> rfl

@[simp] theorem boundaryStep_birdVelocity (height : ℚ) (s : GameState) :
    (boundaryStep height s).birdVelocity = s.birdVelocity := by
  unfold boundaryStep; split <;> rfl

@[simp] theorem boundaryStep_birdRotation (height : ℚ) (s : GameState) :
    (boundaryStep height s).birdRotation = s.birdRotation := by
  unfold boundaryStep; split <;> rfl

@[simp] theorem boundaryStep_pipes (height : ℚ) (s : GameState) :
    (boundaryStep height s).pipes = s.pipes := by
  unfold boundaryStep; split <;> rfl

@[simp] theorem boundaryStep_score (height : ℚ) (s : GameState) :
    (boundaryStep height s).score = s.score := by
  unfold boundaryStep; split <;> rfl

@[simp] theorem boundaryStep_isGameStarted (height : ℚ) (s : GameState) :
    (boundaryStep height s).isGameStarted = s.isGameStarted := by
  unfold boundaryStep; split <;> rfl

theorem boundaryStep_isGameOver (height : ℚ) (s : GameState) :
    (boundaryStep height s).isGameOver =
      (s.isGameOver || boundaryHit height s.birdY) := by
  unfold boundaryStep
  rcases hb : boundaryHit height s.birdY <;> simp [hb]

theorem boundaryStep_tickActive (height : ℚ) (s : GameState) :
    (boundaryStep height s).tickActive =
      (!boundaryHit height s.birdY && s.tickActive) := by
  unfold boundaryStep
  rcases hb : boundaryHit height s.birdY <;> simp [hb]

theorem boundaryStep_spawnActive (height : ℚ) (s : GameState) :
    (boundaryStep height s).spawnActive =
      (!boundaryHit height s.birdY && s.spawnActive) := by
  unfold boundaryStep
  rcases hb : boundaryHit height s.birdY <;> simp [hb]

@[simp] theorem pipesStep_birdY (height : ℚ) (s : GameState) :
    (pipesStep height s).birdY = s.birdY := by
  simp only [pipesStep]; split <;> rfl

@[simp] theorem pipesStep_birdVelocity (height : ℚ) (s : GameState) :
    (pipesStep height s).birdVelocity = s.birdVelocity := by
  simp only [pipesStep]; split <;> rfl

@[simp] theorem pipesStep_birdRotation (height : ℚ) (s : GameState) :
    (pipesStep height s).birdRotation = s.birdRotation := by
  simp only [pipesStep]; split <;> rfl

@[simp] theorem pipesStep_isGameStarted (height : ℚ) (s : GameState) :
    (pipesStep height s).isGameStarted = s.isGameStarted := by
  simp only [pipesStep]; split <;> rfl

theorem pipesStep_score (height : ℚ) (s : GameState) :
    (pipesStep height s).score =
      s.score + (scanPipes height s.birdY
        (s.pipes.map (fun p => { p with x := p.x - PIPE_SPEED }))).2.1 := by
  simp only [pipesStep]; split <;> rfl

theorem pipesStep_pipes (height : ℚ) (s : GameState) :
    (pipesStep height s).pipes =
      ((scanPipes height s.birdY
        (s.pipes.map (fun p => { p with x := p.x - PIPE_SPEED }))).1.filter
          (fun p => decide (p.x > -PIPE_WIDTH))) := by
  simp only [pipesStep]; split <;> rfl

theorem pipesStep_isGameOver (height : ℚ) (s : GameState) :
    (pipesStep height s).isGameOver =
      (s.isGameOver || (scanPipes height s.birdY
        (s.pipes.map (fun p => { p with x := p.x - PIPE_SPEED }))).2.2) := by
  simp only [pipesStep]
  rcases h2 : (scanPipes height s.birdY
      (s.pipes.map (fun p => { p with x := p.x - PIPE_SPEED }))).2.2 <;> simp [h2]

theorem pipesStep_tickActive (height : ℚ) (s : GameState) :
    (pipesStep height s).tickActive =
      (!(scanPipes height s.birdY
          (s.pipes.map (fun p => { p with x := p.x - PIPE_SPEED }))).2.2 &&
        s.tickActive) := by
  simp only [pipesStep]
  rcases h2 : (scanPipes height s.birdY
      (s.pipes.map (fun p => { p with x := p.x - PIPE_SPEED }))).2.2 <;> simp [h2]

theorem pipesStep_spawnActive (height : ℚ) (s : GameState) :
    (pipesStep height s).spawnActive =
      (!(scanPipes height s.birdY
          (s.pipes.map (fun p => { p with x := p.x - PIPE_SPEED }))).2.2 &&
        s.spawnActive) := by
  simp only [pipesStep]
  rcases h2 : (scanPipes height s.birdY
      (s.pipes.map (fun p => { p with x := p.x - PIPE_SPEED }))).2.2 <;> simp [h2]

/-!  Field-level description of a whole tick. -/

theorem tickBody_birdVelocity (height : ℚ) (s : GameState) :
    (tickBody height s).birdVelocity = s.birdVelocity + GRAVITY := by
  rw [tickBody_eq_steps]; simp

theorem tickBody_birdY (height : ℚ) (s : GameState) :
    (tickBody height s).birdY = s.birdY + (s.birdVelocity + GRAVITY) := by
  rw [tickBody_eq_steps]; simp

theorem tickBody_isGameStarted (height : ℚ) (s : GameState) :
    (tickBody height s).isGameStarted = s.isGameStarted := by
  rw [tickBody_eq_steps]; simp

theorem tickBody_score (height : ℚ) (s : GameState) :
    (tickBody height s).score =
      s.score + (scanPipes height (s.birdY + (s.birdVelocity + GRAVITY))
        (s.pipes.map (fun p => { p with x := p.x - PIPE_SPEED }))).2.1 := by
  rw [tickBody_eq_steps, pipesStep_score]; simp

theorem tickBody_pipes (height : ℚ) (s : GameState) :
    (tickBody height s).pipes =
      ((scanPipes height (s.birdY + (s.birdVelocity + GRAVITY))
        (s.pipes.map (fun p => { p with x := p.x - PIPE_SPEED }))).1.filter
          (fun p => decide (p.x > -PIPE_WIDTH))) := by
  rw [tickBody_eq_steps, pipesStep_pipes]; simp

theorem tickBody_isGameOver (height : ℚ) (s : GameState) :
    (tickBody height s).isGameOver =
      ((s.isGameOver || boundaryHit height (s.birdY + (s.birdVelocity + GRAVITY))) ||
        (scanPipes height (s.birdY + (s.birdVelocity + GRAVITY))
          (s.pipes.map (fun p => { p with x := p.x - PIPE_SPEED }))).2.2) := by
  rw [tickBody_eq_steps, pipesStep_isGameOver, boundaryStep_isGameOver]; simp

theorem tickBody_tickActive (height : ℚ) (s : GameState) :
    (tickBody height s).tickActive =
      (!(scanPipes height (s.birdY + (s.birdVelocity + GRAVITY))
          (s.pipes.map (fun p => { p with x := p.x - PIPE_SPEED }))).2.2 &&
        (!boundaryHit height (s.birdY + (s.birdVelocity + GRAVITY)) &&
          s.tickActive)) := by
  rw [tickBody_eq_steps, pipesStep_tickActive, boundaryStep_tickActive]; simp

theorem tickBody_spawnActive (height : ℚ) (s : GameState) :
    (tickBody height s).spawnActive =
      (!(scanPipes height (s.birdY + (s.birdVelocity + GRAVITY))
          (s.pipes.map (fun p => { p with x := p.x - PIPE_SPEED }))).2.2 &&
        (!boundaryHit height (s.birdY + (s.birdVelocity + GRAVITY)) &&
          s.spawnActive)) := by
  rw [tickBody_eq_steps, pipesStep_spawnActive, boundaryStep_spawnActive]; simp

/-- Filtering pipes by position commutes with projecting the positions. -/
theorem filter_map_x (l : List Pipe) :
    ((l.filter (fun p => decide (p.x > -PIPE_WIDTH))).map Pipe.x) =
      (l.map Pipe.x).filter (fun t => decide (t > -PIPE_WIDTH)) := by
  induction l with
  | nil => rfl
  | cons p rest ih =>
    by_cases hx : p.x > -PIPE_WIDTH
    · simp [List.filter_cons, hx, ih]
    · simp [List.filter_cons, hx, ih]

/-!  Claim theorems. -/

/-- C7: every tick during Playing first adds GRAVITY to the velocity
unconditionally and then adds the new velocity to the position, with no
bounds clamping; from zero velocity one tick yields velocity 0.6 and
position increased by exactly 0.6. -/
theorem C7_integrate (height : ℚ) (s : GameState) (_h : playing s) :
    (tickBody height s).birdVelocity = s.birdVelocity + GRAVITY ∧
    (tickBody height s).birdY = s.birdY + (s.birdVelocity + GRAVITY) ∧
    GRAVITY = 3 / 5 ∧
    (s.birdVelocity = 0 →
      (tickBody height s).birdVelocity = 3 / 5 ∧
      (tickBody height s).birdY = s.birdY + 3 / 5) := by
  refine ⟨tickBody_birdVelocity height s, tickBody_birdY height s, rfl, ?_⟩
  intro h0
  rw [tickBody_birdVelocity, tickBody_birdY, h0]
  norm_num [GRAVITY]

/-- Witness for C7 at the spec's scenario: a 800-unit playfield, bird at the
center with zero velocity, Playing. -/
theorem C7_integrate_witness :
    playing ⟨true, false, 0, [], 400, 0, 0, true, true⟩ ∧
    ((tickBody 800 ⟨true, false, 0, [], 400, 0, 0, true, true⟩).birdVelocity =
        0 + GRAVITY ∧
      (tickBody 800 ⟨true, false, 0, [], 400, 0, 0, true, true⟩).birdY =
        400 + (0 + GRAVITY) ∧
      GRAVITY = 3 / 5 ∧
      ((0 : ℚ) = 0 →
        (tickBody 800 ⟨true, false, 0, [], 400, 0, 0, true, true⟩).birdVelocity =
          3 / 5 ∧
        (tickBody 800 ⟨true, false, 0, [], 400, 0, 0, true, true⟩).birdY =
          400 + 3 / 5)) :=
  ⟨⟨rfl, rfl⟩, C7_integrate 800 ⟨true, false, 0, [], 400, 0, 0, true, true⟩ ⟨rfl, rfl⟩⟩

/-- C8: an activate input while Playing sets the velocity to exactly
JUMP_HEIGHT = -12, overriding the prior velocity, and the phase stays
Playing. -/
theorem C8_impulse (height : ℚ) (s : GameState) (h : playing s) :
    (handleTap height s).birdVelocity = JUMP_HEIGHT ∧
    JUMP_HEIGHT = -12 ∧
    playing (handleTap height s) := by
  obtain ⟨hs, ho⟩ := h
  refine ⟨?_, rfl, ?_⟩ <;> simp [handleTap, hs, ho, playing]

/-- Witness for C8 at the spec's scenario: Playing with velocity 5. -/
theorem C8_impulse_witness :
    playing ⟨true, false, 0, [], 400, 5, 0, true, true⟩ ∧
    ((handleTap 800 ⟨true, false, 0, [], 400, 5, 0, true, true⟩).birdVelocity =
        JUMP_HEIGHT ∧
      JUMP_HEIGHT = -12 ∧
      playing (handleTap 800 ⟨true, false, 0, [], 400, 5, 0, true, true⟩)) :=
  ⟨⟨rfl, rfl⟩, C8_impulse 800 ⟨true, false, 0, [], 400, 5, 0, true, true⟩ ⟨rfl, rfl⟩⟩

/-- C10: an activate input while Playing changes at most the velocity and
the rotation: position, score, obstacle set, phase flags and both scheduler
flags are untouched. -/
theorem C10_tap_frame (height : ℚ) (s : GameState) (h : playing s) :
    (handleTap height s).birdY = s.birdY ∧
    (handleTap height s).score = s.score ∧
    (handleTap height s).pipes = s.pipes ∧
    (handleTap height s).isGameStarted = s.isGameStarted ∧
    (handleTap height s).isGameOver = s.isGameOver ∧
    (handleTap height s).tickActive = s.tickActive ∧
    (handleTap height s).spawnActive = s.spawnActive := by
  obtain ⟨hs, ho⟩ := h
  simp [handleTap, hs, ho]

/-- Witness for C10 at a concrete Playing state with one live obstacle. -/
theorem C10_tap_frame_witness :
    playing ⟨true, false, 2, [⟨300, 150, 450, false⟩], 444, 5, 12, true, true⟩ ∧
    ((handleTap 800 ⟨true, false, 2, [⟨300, 150, 450, false⟩], 444, 5, 12, true,
        true⟩).birdY = 444 ∧
      (handleTap 800 ⟨true, false, 2, [⟨300, 150, 450, false⟩], 444, 5, 12, true,
        true⟩).score = 2 ∧
      (handleTap 800 ⟨true, false, 2, [⟨300, 150, 450, false⟩], 444, 5, 12, true,
        true⟩).pipes = [⟨300, 150, 450, false⟩] ∧
      (handleTap 800 ⟨true, false, 2, [⟨300, 150, 450, false⟩], 444, 5, 12, true,
        true⟩).isGameStarted = true ∧
      (handleTap 800 ⟨true, false, 2, [⟨300, 150, 450, false⟩], 444, 5, 12, true,
        true⟩).isGameOver = false ∧
      (handleTap 800 ⟨true, false, 2, [⟨300, 150, 450, false⟩], 444, 5, 12, true,
        true⟩).tickActive = true ∧
      (handleTap 800 ⟨true, false, 2, [⟨300, 150, 450, false⟩], 444, 5, 12, true,
        true⟩).spawnActive = true) :=
  ⟨⟨rfl, rfl⟩,
    C10_tap_frame 800 ⟨true, false, 2, [⟨300, 150, 450, false⟩], 444, 5, 12, true,
      true⟩ ⟨rfl, rfl⟩⟩

/-- C5: under the configuration precondition `H ≥ PIPE_GAP + 200` and a
random sample `0 ≤ r < 1`, the spawned obstacle has
`gapTopHeight ∈ [100, H - PIPE_GAP - 100]`,
`gapBottomHeight = H - gapTopHeight - PIPE_GAP ≥ 0`, sits at the playfield's
right edge with `passedFlag` false, and is appended at the end. -/
theorem C5_spawn_bounds (width height r : ℚ) (s : GameState)
    (hH : PIPE_GAP + 200 ≤ height) (hr0 : 0 ≤ r) (hr1 : r < 1) :
    100 ≤ (spawnPipe width height r).topHeight ∧
    (spawnPipe width height r).topHeight ≤ height - PIPE_GAP - 100 ∧
    (spawnPipe width height r).bottomHeight =
      height - (spawnPipe width height r).topHeight - PIPE_GAP ∧
    0 ≤ (spawnPipe width height r).bottomHeight ∧
    (spawnPipe width height r).x = width ∧
    (spawnPipe width height r).passed = false ∧
    (spawnBody width height r s).pipes = s.pipes ++ [spawnPipe width height r] := by
  have hM : (0 : ℚ) ≤ height - PIPE_GAP - 200 := by
    rw [PIPE_GAP] at hH ⊢
    linarith
  have h1 : 0 ≤ r * (height - PIPE_GAP - 200) := mul_nonneg hr0 hM
  have h2 : r * (height - PIPE_GAP - 200) ≤ height - PIPE_GAP - 200 :=
    mul_le_of_le_one_left hM hr1.le
  refine ⟨?_, ?_, rfl, ?_, rfl, rfl, rfl⟩
  · show 100 ≤ r * (height - PIPE_GAP - 200) + 100
    linarith
  · show r * (height - PIPE_GAP - 200) + 100 ≤ height - PIPE_GAP - 100
    linarith
  · show 0 ≤ height - (r * (height - PIPE_GAP - 200) + 100) - PIPE_GAP
    rw [PIPE_GAP] at h2 ⊢
    linarith

/-- Witness for C5: an 800-unit playfield, width 400, sample r = 1/2. -/
theorem C5_spawn_bounds_witness :
    (PIPE_GAP + 200 ≤ (800 : ℚ) ∧ (0 : ℚ) ≤ 1 / 2 ∧ (1 : ℚ) / 2 < 1) ∧
    (100 ≤ (spawnPipe 400 800 (1 / 2)).topHeight ∧
      (spawnPipe 400 800 (1 / 2)).topHeight ≤ 800 - PIPE_GAP - 100 ∧
      (spawnPipe 400 800 (1 / 2)).bottomHeight =
        800 - (spawnPipe 400 800 (1 / 2)).topHeight - PIPE_GAP ∧
      0 ≤ (spawnPipe 400 800 (1 / 2)).bottomHeight ∧
      (spawnPipe 400 800 (1 / 2)).x = 400 ∧
      (spawnPipe 400 800 (1 / 2)).passed = false ∧
      (spawnBody 400 800 (1 / 2) (initialState 800)).pipes =
        (initialState 800).pipes ++ [spawnPipe 400 800 (1 / 2)]) :=
  ⟨⟨by norm_num [PIPE_GAP], by norm_num, by norm_num⟩,
    C5_spawn_bounds 400 800 (1 / 2) (initialState 800) (by norm_num [PIPE_GAP])
      (by norm_num) (by norm_num)⟩

/-- C3: during Playing the tick ends the game exactly when some advanced
obstacle overlaps the bird horizontally
(`avatarX + radius > x` and `avatarX - radius < x + PIPE_WIDTH`) while the
bird leaves the gap (`y - radius < gapTopHeight` or
`y + radius > height - gapBottomHeight`), or the bird breaches a boundary
(`y > height - 100` ground, `y < 50` ceiling), where `y` is the position
after this tick's physics integration. -/
theorem C3_collision_boundary (height : ℚ) (s : GameState) (h : playing s) :
    ((tickBody height s).isGameOver = true ↔
      ((∃ p ∈ s.pipes.map (fun q => { q with x := q.x - PIPE_SPEED }),
          birdX + birdRadius > p.x ∧ birdX - birdRadius < p.x + PIPE_WIDTH ∧
            (s.birdY + (s.birdVelocity + GRAVITY) - birdRadius < p.topHeight ∨
              s.birdY + (s.birdVelocity + GRAVITY) + birdRadius >
                height - p.bottomHeight)) ∨
        (s.birdY + (s.birdVelocity + GRAVITY) > height - 100 ∨
          s.birdY + (s.birdVelocity + GRAVITY) < 50))) := by
  obtain ⟨hs, ho⟩ := h
  rw [tickBody_isGameOver, ho, scanPipes_collided]
  simp only [Bool.false_or, Bool.or_eq_true, List.any_eq_true, boundaryHit,
    collidesPipe, Bool.and_eq_true, decide_eq_true_eq, and_assoc]
  exact or_comm

/-- Witness for C3: a Playing state whose bird collides with the gap's lower
barrier after advancing. -/
theorem C3_collision_boundary_witness :
    playing ⟨true, false, 0, [⟨92, 100, 500, false⟩], 400, 0, 0, true, true⟩ ∧
    ((tickBody 800 ⟨true, false, 0, [⟨92, 100, 500, false⟩], 400, 0, 0, true,
        true⟩).isGameOver = true ↔
      ((∃ p ∈ ([⟨92, 100, 500, false⟩] : List Pipe).map
            (fun q => { q with x := q.x - PIPE_SPEED }),
          birdX + birdRadius > p.x ∧ birdX - birdRadius < p.x + PIPE_WIDTH ∧
            (400 + (0 + GRAVITY) - birdRadius < p.topHeight ∨
              400 + (0 + GRAVITY) + birdRadius > 800 - p.bottomHeight)) ∨
        ((400 : ℚ) + (0 + GRAVITY) > 800 - 100 ∨ (400 : ℚ) + (0 + GRAVITY) < 50))) :=
  ⟨⟨rfl, rfl⟩,
    C3_collision_boundary 800 ⟨true, false, 0, [⟨92, 100, 500, false⟩], 400, 0, 0,
      true, true⟩ ⟨rfl, rfl⟩⟩

/-- C4: each tick during Playing advances every live obstacle left by
exactly PIPE_SPEED, then removes exactly the obstacles whose position is not
right of -PIPE_WIDTH (so in particular every obstacle with
`x < -PIPE_WIDTH` is gone), preserving the order of the survivors; spawning
appends at the end, leaving the existing order intact. -/
theorem C4_advance_prune (height : ℚ) (s : GameState) (_h : playing s) :
    ((tickBody height s).pipes.map Pipe.x) =
      (((s.pipes.map Pipe.x).map (fun t => t - PIPE_SPEED)).filter
        (fun t => decide (t > -PIPE_WIDTH))) ∧
    (∀ p ∈ (tickBody height s).pipes, -PIPE_WIDTH < p.x) ∧
    (∀ width r, (spawnBody width height r s).pipes =
      s.pipes ++ [spawnPipe width height r]) := by
  refine ⟨?_, ?_, fun _ _ => rfl⟩
  · rw [tickBody_pipes, filter_map_x, scanPipes_map_x]
    simp [List.map_map, Function.comp_def]
  · intro p hp
    rw [tickBody_pipes] at hp
    have := List.of_mem_filter hp
    simpa using this

/-- Witness for C4: one obstacle survives the advance, one is pruned. -/
theorem C4_advance_prune_witness :
    playing ⟨true, false, 0, [⟨-79, 100, 500, true⟩, ⟨300, 150, 450, false⟩], 400,
      0, 0, true, true⟩ ∧
    (((tickBody 800 ⟨true, false, 0, [⟨-79, 100, 500, true⟩, ⟨300, 150, 450,
          false⟩], 400, 0, 0, true, true⟩).pipes.map Pipe.x) =
        ((([⟨-79, 100, 500, true⟩, ⟨300, 150, 450, false⟩] : List Pipe).map
          Pipe.x).map (fun t => t - PIPE_SPEED)).filter
            (fun t => decide (t > -PIPE_WIDTH)) ∧
      (∀ p ∈ (tickBody 800 ⟨true, false, 0, [⟨-79, 100, 500, true⟩, ⟨300, 150,
          450, false⟩], 400, 0, 0, true, true⟩).pipes, -PIPE_WIDTH < p.x) ∧
      (∀ width r,
        (spawnBody width 800 r ⟨true, false, 0, [⟨-79, 100, 500, true⟩, ⟨300,
          150, 450, false⟩], 400, 0, 0, true, true⟩).pipes =
          [⟨-79, 100, 500, true⟩, ⟨300, 150, 450, false⟩] ++
            [spawnPipe width 800 r])) :=
  ⟨⟨rfl, rfl⟩,
    C4_advance_prune 800 ⟨true, false, 0, [⟨-79, 100, 500, true⟩, ⟨300, 150, 450,
      false⟩], 400, 0, 0, true, true⟩ ⟨rfl, rfl⟩⟩

/-- C9: an activate input in the Ended state (schedulers already stopped by
`endGame`) yields exactly the initial Idle state, with neither scheduler
started; a second activate input is what enters Playing and starts both
schedulers. -/
theorem C9_ended_tap_idle (height : ℚ) (s : GameState) (hov : s.isGameOver = true)
    (ht : s.tickActive = false) (hsp : s.spawnActive = false) :
    handleTap height s = initialState height ∧
    ¬ playing (handleTap height s) ∧
    playing (handleTap height (handleTap height s)) ∧
    (handleTap height (handleTap height s)).tickActive = true ∧
    (handleTap height (handleTap height s)).spawnActive = true := by
  have h1 : handleTap height s = initialState height := by
    cases s
    simp_all [handleTap, resetGame, initialState]
  refine ⟨h1, ?_, ?_, ?_, ?_⟩ <;> rw [h1] <;>
    simp [handleTap, startGame, initialState, playing]

/-- Witness for C9 at a concrete Ended state. -/
theorem C9_ended_tap_idle_witness :
    ((⟨true, true, 7, [⟨120, 100, 500, true⟩], 710, 9, 45, false, false⟩ :
        GameState).isGameOver = true ∧
      (⟨true, true, 7, [⟨120, 100, 500, true⟩], 710, 9, 45, false, false⟩ :
        GameState).tickActive = false ∧
      (⟨true, true, 7, [⟨120, 100, 500, true⟩], 710, 9, 45, false, false⟩ :
        GameState).spawnActive = false) ∧
    (handleTap 800 ⟨true, true, 7, [⟨120, 100, 500, true⟩], 710, 9, 45, false,
        false⟩ = initialState 800 ∧
      ¬ playing (handleTap 800 ⟨true, true, 7, [⟨120, 100, 500, true⟩], 710, 9,
        45, false, false⟩) ∧
      playing (handleTap 800 (handleTap 800 ⟨true, true, 7, [⟨120, 100, 500,
        true⟩], 710, 9, 45, false, false⟩)) ∧
      (handleTap 800 (handleTap 800 ⟨true, true, 7, [⟨120, 100, 500, true⟩],
        710, 9, 45, false, false⟩)).tickActive = true ∧
      (handleTap 800 (handleTap 800 ⟨true, true, 7, [⟨120, 100, 500, true⟩],
        710, 9, 45, false, false⟩)).spawnActive = true) :=
  ⟨⟨rfl, rfl, rfl⟩,
    C9_ended_tap_idle 800 ⟨true, true, 7, [⟨120, 100, 500, true⟩], 710, 9, 45,
      false, false⟩ rfl rfl rfl⟩

/-- C2 counterexample: at a concrete Ended state, one activate input leaves
the game NOT in Playing and restarts neither scheduler, contradicting the
claimed direct Ended-to-Playing transition with scheduler restart. -/
theorem C2_cex :
    ¬ playing (handleTap 800 ⟨true, true, 3, [⟨300, 150, 450, false⟩], 500, 4, 30,
      false, false⟩) ∧
    (handleTap 800 ⟨true, true, 3, [⟨300, 150, 450, false⟩], 500, 4, 30, false,
      false⟩).tickActive = false ∧
    (handleTap 800 ⟨true, true, 3, [⟨300, 150, 450, false⟩], 500, 4, 30, false,
      false⟩).spawnActive = false :=
  ⟨fun hpl => Bool.noConfusion hpl.1, rfl, rfl⟩

/-- C2 (amended): an activate input while Ended performs the reset but lands
in Idle, not Playing: the obstacle set is cleared, the avatar returns to its
initial position with zero velocity and zero rotation, the score is reset to
0, and neither scheduler is restarted; the next activate input then enters
Playing and starts both schedulers. -/
theorem C2_ended_tap_resets (height : ℚ) (s : GameState)
    (hov : s.isGameOver = true) (ht : s.tickActive = false)
    (hsp : s.spawnActive = false) :
    (handleTap height s).score = 0 ∧
    (handleTap height s).pipes = [] ∧
    (handleTap height s).birdY = height / 2 ∧
    (handleTap height s).birdVelocity = 0 ∧
    (handleTap height s).birdRotation = 0 ∧
    idle (handleTap height s) ∧
    (handleTap height s).tickActive = false ∧
    (handleTap height s).spawnActive = false ∧
    playing (handleTap height (handleTap height s)) ∧
    (handleTap height (handleTap height s)).tickActive = true ∧
    (handleTap height (handleTap height s)).spawnActive = true := by
  have h1 : handleTap height s = resetGame height s := by
    simp [handleTap, hov]
  rw [h1]
  refine ⟨rfl, rfl, rfl, rfl, rfl, ⟨rfl, rfl⟩, ht, hsp, ?_, ?_, ?_⟩ <;>
    simp [handleTap, resetGame, startGame, playing]

/-- Witness for C2's amended claim at a concrete Ended state. -/
theorem C2_ended_tap_resets_witness :
    ((⟨true, true, 9, [⟨44, 120, 480, true⟩], 666, 8, 60, false, false⟩ :
        GameState).isGameOver = true ∧
      (⟨true, true, 9, [⟨44, 120, 480, true⟩], 666, 8, 60, false, false⟩ :
        GameState).tickActive = false ∧
      (⟨true, true, 9, [⟨44, 120, 480, true⟩], 666, 8, 60, false, false⟩ :
        GameState).spawnActive = false) ∧
    ((handleTap 800 ⟨false, true, 9, [⟨44, 120, 480, true⟩], 666, 8, 60, false,
        false⟩).score = 0 ∧
      (handleTap 800 ⟨false, true, 9, [⟨44, 120, 480, true⟩], 666, 8, 60, false,
        false⟩).pipes = [] ∧
      (handleTap 800 ⟨false, true, 9, [⟨44, 120, 480, true⟩], 666, 8, 60, false,
        false⟩).birdY = 800 / 2 ∧
      (handleTap 800 ⟨false, true, 9, [⟨44, 120, 480, true⟩], 666, 8, 60, false,
        false⟩).birdVelocity = 0 ∧
      (handleTap 800 ⟨false, true, 9, [⟨44, 120, 480, true⟩], 666, 8, 60, false,
        false⟩).birdRotation = 0 ∧
      idle (handleTap 800 ⟨false, true, 9, [⟨44, 120, 480, true⟩], 666, 8, 60,
        false, false⟩) ∧
      (handleTap 800 ⟨false, true, 9, [⟨44, 120, 480, true⟩], 666, 8, 60, false,
        false⟩).tickActive = false ∧
      (handleTap 800 ⟨false, true, 9, [⟨44, 120, 480, true⟩], 666, 8, 60, false,
        false⟩).spawnActive = false ∧
      playing (handleTap 800 (handleTap 800 ⟨false, true, 9, [⟨44, 120, 480,
        true⟩], 666, 8, 60, false, false⟩)) ∧
      (handleTap 800 (handleTap 800 ⟨false, true, 9, [⟨44, 120, 480, true⟩],
        666, 8, 60, false, false⟩)).tickActive = true ∧
      (handleTap 800 (handleTap 800 ⟨false, true, 9, [⟨44, 120, 480, true⟩],
        666, 8, 60, false, false⟩)).spawnActive = true) :=
  ⟨⟨rfl, rfl, rfl⟩,
    C2_ended_tap_resets 800 ⟨false, true, 9, [⟨44, 120, 480, true⟩], 666, 8, 60,
      false, false⟩ rfl rfl rfl⟩

/-- C1 counterexample: at a concrete Playing state the boundary termination
fires during the tick (the bird falls past the ground threshold), yet in the
very same tick the obstacle still advances and the score still increments —
so the termination side effect is neither last in the tick nor does it
freeze score and obstacle positions for the rest of the tick. -/
theorem C1_cex :
    tickBody 800 ⟨true, false, 0, [⟨2, 100, 500, false⟩], 750, 0, 0, true, true⟩ =
      pipesStep 800 (boundaryStep 800 (physicsStep
        ⟨true, false, 0, [⟨2, 100, 500, false⟩], 750, 0, 0, true, true⟩)) ∧
    (boundaryStep 800 (physicsStep
      ⟨true, false, 0, [⟨2, 100, 500, false⟩], 750, 0, 0, true,
        true⟩)).isGameOver = true ∧
    (pipesStep 800 (boundaryStep 800 (physicsStep
      ⟨true, false, 0, [⟨2, 100, 500, false⟩], 750, 0, 0, true, true⟩))).score =
      (boundaryStep 800 (physicsStep
        ⟨true, false, 0, [⟨2, 100, 500, false⟩], 750, 0, 0, true,
          true⟩)).score + 1 ∧
    (pipesStep 800 (boundaryStep 800 (physicsStep
      ⟨true, false, 0, [⟨2, 100, 500, false⟩], 750, 0, 0, true,
        true⟩))).pipes.map Pipe.x ≠
      (boundaryStep 800 (physicsStep
        ⟨true, false, 0, [⟨2, 100, 500, false⟩], 750, 0, 0, true,
          true⟩)).pipes.map Pipe.x := by
  have hb : boundaryHit 800 ((physicsStep ⟨true, false, 0, [⟨2, 100, 500, false⟩],
      750, 0, 0, true, true⟩).birdY) = true := by
    rw [physicsStep_birdY]
    norm_num [boundaryHit, GRAVITY]
  have hadv : ([⟨2, 100, 500, false⟩] : List Pipe).map
      (fun p => { p with x := p.x - PIPE_SPEED }) = [⟨0, 100, 500, false⟩] := by
    simp [PIPE_SPEED]
  have hnc : ¬ collidesPipe 800 (750 + (0 + GRAVITY)) ⟨0, 100, 500, false⟩ =
      true := by
    norm_num [collidesPipe, birdX, birdRadius, PIPE_WIDTH, GRAVITY]
  have hscan : scanPipes 800 (750 + (0 + GRAVITY)) [⟨0, 100, 500, false⟩] =
      ([⟨0, 100, 500, true⟩], 1, false) := by
    rw [scanPipes_cons_pass 800 (750 + (0 + GRAVITY)) ⟨0, 100, 500, false⟩ []
      hnc rfl (by norm_num [PIPE_WIDTH, birdX])]
    rfl
  refine ⟨tickBody_eq_steps 800 _, ?_, ?_, ?_⟩
  · rw [boundaryStep_isGameOver, hb]
    simp
  · rw [pipesStep_score, boundaryStep_birdY, boundaryStep_pipes,
      physicsStep_birdY, physicsStep_pipes]
    dsimp only
    rw [hadv, hscan]
  · rw [pipesStep_pipes, boundaryStep_birdY, boundaryStep_pipes,
      physicsStep_birdY, physicsStep_pipes]
    dsimp only
    rw [hadv, hscan]
    simp [List.filter_cons, PIPE_WIDTH]

/-- C1 (amended): during Playing, (i) whenever a tick ends the game both
schedulers stop with it, so no later tick signal and no later spawn signal
mutates the state until reset; (ii) obstacle-collision termination is
evaluated after physics integration and obstacle advancement and stops the
scan — at a colliding obstacle the remaining list is returned untouched,
with no further score increment that tick; (iii) the boundary termination,
however, is evaluated after physics integration but before obstacle
advancement and collision/passage evaluation, all of which still run in
that same tick. -/
theorem C1_termination (width height r : ℚ) (s : GameState) (h : playing s) :
    ((tickBody height s).isGameOver = true →
      (tickBody height s).tickActive = false ∧
      (tickBody height s).spawnActive = false ∧
      fireTick height (tickBody height s) = tickBody height s ∧
      fireSpawn width height r (tickBody height s) = tickBody height s) ∧
    (∀ y p rest, collidesPipe height y p = true →
      scanPipes height y (p :: rest) = (p :: rest, 0, true)) ∧
    tickBody height s = pipesStep height (boundaryStep height (physicsStep s)) := by
  obtain ⟨hs, ho⟩ := h
  refine ⟨?_, fun y p rest hc => scanPipes_cons_collide height y p rest hc,
    tickBody_eq_steps height s⟩
  intro hover
  have hbc : boundaryHit height (s.birdY + (s.birdVelocity + GRAVITY)) = true ∨
      (scanPipes height (s.birdY + (s.birdVelocity + GRAVITY))
        (s.pipes.map (fun p => { p with x := p.x - PIPE_SPEED }))).2.2 = true := by
    rw [tickBody_isGameOver, ho] at hover
    simpa using hover
  have hta : (tickBody height s).tickActive = false := by
    rw [tickBody_tickActive]
    rcases hbc with hbb | hcoll
    · simp [hbb]
    · simp [hcoll]
  have hsa : (tickBody height s).spawnActive = false := by
    rw [tickBody_spawnActive]
    rcases hbc with hbb | hcoll
    · simp [hbb]
    · simp [hcoll]
  exact ⟨hta, hsa, by simp [fireTick, hta], by simp [fireSpawn, hsa]⟩

/-- Witness for C1's amended claim at a concrete Playing state whose tick
breaches the ground boundary. -/
theorem C1_termination_witness :
    playing ⟨true, false, 0, [], 750, 0, 0, true, true⟩ ∧
    (((tickBody 800 ⟨true, false, 0, [], 750, 0, 0, true, true⟩).isGameOver =
        true →
      (tickBody 800 ⟨true, false, 0, [], 750, 0, 0, true, true⟩).tickActive =
        false ∧
      (tickBody 800 ⟨true, false, 0, [], 750, 0, 0, true, true⟩).spawnActive =
        false ∧
      fireTick 800 (tickBody 800 ⟨true, false, 0, [], 750, 0, 0, true, true⟩) =
        tickBody 800 ⟨true, false, 0, [], 750, 0, 0, true, true⟩ ∧
      fireSpawn 400 800 (1 / 2)
          (tickBody 800 ⟨true, false, 0, [], 750, 0, 0, true, true⟩) =
        tickBody 800 ⟨true, false, 0, [], 750, 0, 0, true, true⟩) ∧
    (∀ y p rest, collidesPipe 800 y p = true →
      scanPipes 800 y (p :: rest) = (p :: rest, 0, true)) ∧
    tickBody 800 ⟨true, false, 0, [], 750, 0, 0, true, true⟩ =
      pipesStep 800 (boundaryStep 800 (physicsStep
        ⟨true, false, 0, [], 750, 0, 0, true, true⟩))) :=
  ⟨⟨rfl, rfl⟩,
    C1_termination 400 800 (1 / 2) ⟨true, false, 0, [], 750, 0, 0, true, true⟩
      ⟨rfl, rfl⟩⟩

/-- C6 counterexample: a pipe that satisfies the passage condition during
the tick (passedFlag false, trailing edge 10 + 80 = 90 left of the avatar at
100) is nonetheless not marked and does not score, because that same pipe
collides and the scan stops before its passage test. -/
theorem C6_cex :
    (10 : ℚ) + PIPE_WIDTH < birdX ∧
    (tickBody 800 ⟨true, false, 0, [⟨12, 100, 500, false⟩], 400, 0, 0, true,
      true⟩).pipes = [⟨10, 100, 500, false⟩] ∧
    (tickBody 800 ⟨true, false, 0, [⟨12, 100, 500, false⟩], 400, 0, 0, true,
      true⟩).score = 0 ∧
    (tickBody 800 ⟨true, false, 0, [⟨12, 100, 500, false⟩], 400, 0, 0, true,
      true⟩).isGameOver = true := by
  have hc : collidesPipe 800 (400 + (0 + GRAVITY)) ⟨10, 100, 500, false⟩ =
      true := by
    norm_num [collidesPipe, birdX, birdRadius, PIPE_WIDTH, GRAVITY]
  have hadv : ([⟨12, 100, 500, false⟩] : List Pipe).map
      (fun p => { p with x := p.x - PIPE_SPEED }) = [⟨10, 100, 500, false⟩] := by
    simp [PIPE_SPEED]
    norm_num
  have hscan : scanPipes 800 (400 + (0 + GRAVITY)) [⟨10, 100, 500, false⟩] =
      ([⟨10, 100, 500, false⟩], 0, true) :=
    scanPipes_cons_collide 800 (400 + (0 + GRAVITY)) ⟨10, 100, 500, false⟩ [] hc
  refine ⟨by norm_num [PIPE_WIDTH, birdX], ?_, ?_, ?_⟩
  · rw [tickBody_pipes]
    dsimp only
    rw [hadv, hscan]
    simp [List.filter_cons, PIPE_WIDTH]
    norm_num
  · rw [tickBody_score]
    dsimp only
    rw [hadv, hscan]
    rfl
  · rw [tickBody_isGameOver]
    dsimp only
    rw [hadv, hscan]
    simp

/-- C6 (amended): within each tick's scan a pipe's passedFlag is either
preserved or turned from false to true — never reset — so it transitions at
most once over the pipe's lifetime; a newly marked pipe had passedFlag false
and its trailing edge left of the avatar's position (marking can be skipped
when an earlier collision stops the scan first); the tick's score increment
count equals the number of newly marked pipes, so each transition adds
exactly 1, and the score never decreases across a tick. -/
theorem C6_passage_scoring (height y : ℚ) (l : List Pipe) (s : GameState) :
    List.Forall₂ (fun p q =>
        q.x = p.x ∧ q.topHeight = p.topHeight ∧ q.bottomHeight = p.bottomHeight ∧
          (q.passed = p.passed ∨
            (p.passed = false ∧ q.passed = true ∧ p.x + PIPE_WIDTH < birdX)))
      l (scanPipes height y l).1 ∧
    ((scanPipes height y l).1.countP (fun p => p.passed) =
      l.countP (fun p => p.passed) + (scanPipes height y l).2.1) ∧
    s.score ≤ (tickBody height s).score :=
  ⟨scanPipes_marks height y l, scanPipes_countP height y l, by
    rw [tickBody_score]; exact Nat.le_add_right _ _⟩

end Flappy
